import Mathlib

/-!
# Verification of the `HttpCompare` differential HTTP response comparator

Shallow embedding of `bbot/core/helpers/diff.py`.

The Python class `HttpCompare` calibrates a baseline from two time-separated
HTTP responses and then classifies subject responses against it.  External
collaborators are modelled as parameters:

* the transport (`parent_helper.request`) delivers a `Response` or nothing
  (the Python code receives a falsy value on an unreachable request), so a
  subject request's outcome is an `Option Response`;
* the markup-to-tree collaborator (`xmltojson.parse` followed by
  `json.loads`, failing with `ExpatError` on malformed input) is a
  parameter `pm : String → Option T` over an abstract tree type `T`;
* the deep-distance collaborator (`DeepDiff` with `get_deep_distance=True`)
  is a parameter `dd : StructuralForm T → StructuralForm T → ℚ` (the Python
  float score is modelled as a rational, since the code only ever compares
  distances for equality);
* the random token source (`rand_string`) provides the cache-busting token,
  passed in explicitly where a request URL is formed.

Python's in-place `del headers[name]` on the (case-insensitive) header dicts
is modelled by state passing: `compare_headers` returns the two header
collections after deletion, and `compare` returns the possibly-updated
comparator state next to its result, reflecting that in the source
`self.baseline` aliases `baseline_1` and `compare_headers` mutates the dicts
it is handed.
-/

namespace BBot

/-- A header collection: one `(name, value)` pair per header, as held by the
case-insensitive header dict of a transport response. -/
abbrev Headers := List (String × String)

/-- A usable transport response: status code, headers, body text. -/
structure Response where
  status_code : Nat
  headers : Headers
  text : String
deriving DecidableEq

/-- The error raised by `HttpCompare.__init__` on an unstable baseline
(`bbot.core.errors.HttpCompareError`). -/
structure HttpCompareError where
  message : String
deriving DecidableEq

/-- Structural form of a parsed body: either the markup tree produced by the
markup-to-tree collaborator, or the line-sequence fallback
(`text.split("\n")`) used when markup parsing fails. -/
inductive StructuralForm (T : Type) where
  | tree : T → StructuralForm T
  | lines : List String → StructuralForm T
deriving DecidableEq

/-- Character-wise lowercasing of a header name, the case-insensitive key
normalization of the header dict. -/
def lowerName (s : String) : String :=
  String.mk (s.data.map Char.toLower)

/-- Python `del headers[name]` on a case-insensitive header dict, with a `KeyError`
silently passed over: every pair whose name matches case-insensitively is
removed; a missing name leaves the collection unchanged. -/
def delHeader (name : String) (hs : Headers) : Headers :=
  hs.filter (fun p => lowerName p.1 ≠ lowerName name)

/-- The loop `for ignored_header in self.baseline_ignore_headers: del ...`
applied to one header collection. -/
def delHeaders (names : List String) (hs : Headers) : Headers :=
  names.foldl (fun acc n => delHeader n acc) hs

/-- Dictionary lookup by exact name, as `DeepDiff` sees the two header
dicts. -/
def lookupHeader (hs : Headers) (n : String) : Option String :=
  (hs.find? (fun p => p.1 = n)).map Prod.snd

/-- The header names collected from the `DeepDiff` tree view in
`HttpCompare.compare_headers`: `dictionary_item_added` (names only in the
second collection), then `values_changed` (names in both with different
values), then `dictionary_item_removed` (names only in the first
collection); `str(x).split("'")[1]` extracts the header name from each diff
item. -/
def headerDiffNames (h1 h2 : Headers) : List String :=
  let added := (h2.map Prod.fst).filter (fun n => lookupHeader h1 n = none)
  let changed := (h1.map Prod.fst).filter (fun n =>
    match lookupHeader h1 n, lookupHeader h2 n with
    | some v1, some v2 => v1 ≠ v2
    | _, _ => false)
  let removed := (h1.map Prod.fst).filter (fun n => lookupHeader h2 n = none)
  added ++ changed ++ removed

/-- The method `HttpCompare.compare_headers(headers_1, headers_2)`: deletes every
ignored name from both collections in place, then diffs what remains.
Returns the matched (differing) header names together with the two header
collections as the caller's objects stand after the in-place deletions. -/
def HttpCompare.compare_headers (ignore : List String) (headers_1 headers_2 : Headers) :
    List String × Headers × Headers :=
  let h1 := delHeaders ignore headers_1
  let h2 := delHeaders ignore headers_2
  (headerDiffNames h1 h2, h1, h2)

/-- The method `HttpCompare.compare_body(content_1, content_2)`: `0.0` when the two
structural forms are equal, otherwise the collaborator's deep distance. -/
def HttpCompare.compare_body {T : Type} [DecidableEq T]
    (dd : StructuralForm T → StructuralForm T → ℚ)
    (content_1 content_2 : StructuralForm T) : ℚ :=
  if content_1 = content_2 then 0 else dd content_1 content_2

/-- Parsing `json.loads(xmltojson.parse(text))` with the `ExpatError` fallback
`text.split("\n")`, for a single body (the subject path in
`HttpCompare.compare`). -/
def parseBody {T : Type} (pm : String → Option T) (text : String) : StructuralForm T :=
  match pm text with
  | some j => StructuralForm.tree j
  | none => StructuralForm.lines (text.splitOn "\n")

/-- The calibration parse in `HttpCompare.__init__`: both baseline bodies
are parsed inside one `try`/`except ExpatError` block, so a parse failure on
either body sends BOTH bodies down the line-sequence fallback.  (When the
first body fails to parse, the second is never attempted.) -/
def parseBaselines {T : Type} (pm : String → Option T) (t1 t2 : String) :
    StructuralForm T × StructuralForm T :=
  match pm t1, pm t2 with
  | some j1, some j2 => (StructuralForm.tree j1, StructuralForm.tree j2)
  | _, _ => (StructuralForm.lines (t1.splitOn "\n"), StructuralForm.lines (t2.splitOn "\n"))

/-- The method `gen_cache_buster`: `"?" + rand_string(6) + "=1"`, for a given random
token. -/
def gen_cache_buster (tok : String) : String := "?" ++ tok ++ "=1"

/-- The seed of `baseline_ignore_headers` in `HttpCompare.__init__`. -/
def seedIgnoreHeaders : List String := ["date", "last-modified", "content-length"]

/-- The state of a successfully constructed `HttpCompare` instance: the
attributes set by `__init__`. -/
structure HttpCompareState (T : Type) where
  baseline_url : String
  baseline : Response
  baseline_json : StructuralForm T
  baseline_ignore_headers : List String
  baseline_body_distance : ℚ
deriving DecidableEq

/-- The constructor `HttpCompare.__init__`, given the two calibration responses the
transport delivered.  Raising `HttpCompareError` is modelled as
`Except.error`: no state is produced.  Note that in the source
`self.baseline` aliases `baseline_1`, so the in-place deletions performed by
`compare_headers` leave the stored baseline headers stripped of the seeded
ignore names. -/
def HttpCompare.init {T : Type} [DecidableEq T] (pm : String → Option T)
    (dd : StructuralForm T → StructuralForm T → ℚ) (baseline_url : String)
    (baseline_1 baseline_2 : Response) :
    Except HttpCompareError (HttpCompareState T) :=
  if baseline_1.status_code ≠ baseline_2.status_code then
    Except.error ⟨"Can't get baseline from source URL"⟩
  else
    let bjs := parseBaselines pm baseline_1.text baseline_2.text
    let ch := HttpCompare.compare_headers seedIgnoreHeaders baseline_1.headers baseline_2.headers
    Except.ok
      { baseline_url := baseline_url
        baseline := { baseline_1 with headers := ch.2.1 }
        baseline_json := bjs.1
        baseline_ignore_headers := seedIgnoreHeaders ++ ch.1
        baseline_body_distance := HttpCompare.compare_body dd bjs.1 bjs.2 }

/-- Python `needle in haystack` on strings: substring containment. -/
def containsStr (haystack needle : String) : Bool :=
  decide (List.IsInfix needle.data haystack.data)

/-- Python `list(d.values())[0]` under the guard `len(d) == 1`: the value of the
single entry. -/
def firstValue (hs : Headers) : Option String :=
  hs.head?.map Prod.snd

/-- The `elif add_cookies:` reflection branch of `HttpCompare.compare`. -/
def cookieReflection (add_cookies : Option Headers) (text : String) : Bool :=
  match add_cookies with
  | some cs =>
    if cs.isEmpty then false
    else if cs.length = 1 then
      match firstValue cs with
      | some v => containsStr text v
      | none => false
    else false
  | none => false

/-- The reflection flag computed at the top of `HttpCompare.compare`:
checked only when exactly one extra header (or, with no extra headers
supplied, exactly one extra cookie) was given, by testing whether that
single injected value occurs in the subject body.  `if add_headers:` is
Python truthiness, so an absent or empty dict falls through to the cookie
branch. -/
def reflectionFlag (add_headers add_cookies : Option Headers) (text : String) : Bool :=
  match add_headers with
  | some hs =>
    if hs.isEmpty then cookieReflection add_cookies text
    else if hs.length = 1 then
      match firstValue hs with
      | some v => containsStr text v
      | none => false
    else false
  | none => cookieReflection add_cookies text

/-- The request `HttpCompare.compare` hands to the transport. -/
structure HttpRequest where
  url : String
  headers : Option Headers
  cookies : Option Headers
  allow_redirects : Bool
deriving DecidableEq

/-- The subject request issued by `HttpCompare.compare`:
`self.parent_helper.request(subject + self.gen_cache_buster(),
headers=add_headers, allow_redirects=False)`.  The `add_cookies` argument is
never passed to the transport, so the issued request carries no cookies. -/
def subjectRequest (subject tok : String) (add_headers add_cookies : Option Headers) :
    HttpRequest :=
  { url := subject ++ gen_cache_buster tok
    headers := add_headers
    cookies := none
    allow_redirects := false }

/-- The method `HttpCompare.compare(subject, add_headers, add_cookies)`, given the
transport's outcome for the subject request (`none` when the request was
unreachable/blocked).  Returns the Python triple
`(match, reason, reflection)` together with the comparator state as it
stands after the call (`compare_headers` deletes ignored names from
`self.baseline.headers` in place). -/
def HttpCompare.compare {T : Type} [DecidableEq T] (pm : String → Option T)
    (dd : StructuralForm T → StructuralForm T → ℚ) (st : HttpCompareState T)
    (subject_response : Option Response) (add_headers add_cookies : Option Headers) :
    (Bool × Option String × Bool) × HttpCompareState T :=
  match subject_response with
  | none => ((true, some "403", false), st)
  | some resp =>
    let reflection := reflectionFlag add_headers add_cookies resp.text
    let subject_json := parseBody pm resp.text
    if st.baseline.status_code ≠ resp.status_code then
      ((false, some "code", reflection), st)
    else
      let ch := HttpCompare.compare_headers st.baseline_ignore_headers
        st.baseline.headers resp.headers
      let st' := { st with baseline := { st.baseline with headers := ch.2.1 } }
      if ch.1 ≠ [] then
        ((false, some "header", reflection), st')
      else
        let subject_body_distance := HttpCompare.compare_body dd st.baseline_json subject_json
        if st.baseline_body_distance ≠ subject_body_distance then
          ((false, some "body", reflection), st')
        else
          ((true, none, false), st')

/-- The comparator state after a `compare` call that reached
`compare_headers`: the stored baseline header collection has had the ignored
names deleted from it in place; every other attribute is untouched. -/
def strippedState {T : Type} (st : HttpCompareState T) : HttpCompareState T :=
  { st with baseline :=
      { st.baseline with
        headers := delHeaders st.baseline_ignore_headers st.baseline.headers } }

/-! ### Concrete collaborators and data for witnesses and counterexamples -/

/-- A markup parser that fails on every body (all bodies take the
line-sequence fallback). -/
def pmLinesOnly : String → Option Nat := fun _ => none

/-- A deep-distance collaborator returning the constant score `q`. -/
def ddConst (q : ℚ) : StructuralForm Nat → StructuralForm Nat → ℚ := fun _ _ => q

/-- A markup parser that succeeds exactly on the body `"<a></a>"`. -/
def pmHtmlOnly : String → Option Nat := fun s => if s = "<a></a>" then some 0 else none

/-- A markup parser that succeeds on every body, summarizing it by its
character count. -/
def pmCharCount : String → Option Nat := fun s => some s.data.length

/-- A calibration response with status `200`. -/
def resp200 : Response := { status_code := 200, headers := [("server", "nginx")], text := "hello" }

/-- A calibration response with status `500`, otherwise identical to
`resp200`. -/
def resp500 : Response := { status_code := 500, headers := [("server", "nginx")], text := "hello" }

/-- Calibration response 1 of the Date-header scenario. -/
def respDate1 : Response :=
  { status_code := 200, headers := [("Date", "Mon"), ("server", "nginx")], text := "<html>" }

/-- Calibration response 2 of the Date-header scenario: identical to
`respDate1` except for the `Date` header value. -/
def respDate2 : Response :=
  { status_code := 200, headers := [("Date", "Tue"), ("server", "nginx")], text := "<html>" }

/-- The calibrated state `HttpCompare.init` produces from `respDate1` and
`respDate2` (the `Date` seed is stripped from the stored baseline
headers). -/
def stDate : HttpCompareState Nat :=
  { baseline_url := "http://x"
    baseline := { status_code := 200, headers := [("server", "nginx")], text := "<html>" }
    baseline_json := StructuralForm.tree 6
    baseline_ignore_headers := seedIgnoreHeaders
    baseline_body_distance := 0 }

/-- Calibration response 1 of the dynamic-header scenario. -/
def respDyn1 : Response :=
  { status_code := 200, headers := [("x-token", "a"), ("server", "nginx")], text := "body" }

/-- Calibration response 2 of the dynamic-header scenario: the `x-token`
header value differs from `respDyn1`. -/
def respDyn2 : Response :=
  { status_code := 200, headers := [("x-token", "b"), ("server", "nginx")], text := "body" }

/-- A subject response for the dynamic-header scenario. -/
def respDynSubject : Response :=
  { status_code := 200, headers := [("x-token", "c"), ("server", "nginx")], text := "body" }

/-- The calibrated state `HttpCompare.init` produces from `respDyn1` and
`respDyn2`: `x-token` is discovered dynamic and added to the ignore set,
but it is still present in the stored baseline header collection. -/
def stDyn : HttpCompareState Nat :=
  { baseline_url := "http://x"
    baseline := { status_code := 200, headers := [("x-token", "a"), ("server", "nginx")], text := "body" }
    baseline_json := StructuralForm.tree 4
    baseline_ignore_headers := seedIgnoreHeaders ++ ["x-token"]
    baseline_body_distance := 0 }

/-- A minimal calibration response with empty headers and body. -/
def respEmpty : Response := { status_code := 200, headers := [], text := "" }

/-- The calibrated state `HttpCompare.init` produces from two copies of
`respEmpty` under the parser `pmCharCount`. -/
def stEmpty : HttpCompareState Nat :=
  { baseline_url := "http://x"
    baseline := respEmpty
    baseline_json := StructuralForm.tree 0
    baseline_ignore_headers := seedIgnoreHeaders
    baseline_body_distance := 0 }

/-- A calibrated state whose noise-floor distance is the nonzero value
`0.12`, as produced by an always-randomized response field; its structural
body is what `pmCharCount` yields for the baseline body `"a"`. -/
def stFloor : HttpCompareState Nat :=
  { baseline_url := "http://x"
    baseline := { status_code := 200, headers := [], text := "a" }
    baseline_json := StructuralForm.tree 1
    baseline_ignore_headers := seedIgnoreHeaders
    baseline_body_distance := 12 / 100 }

/-- A subject response whose body differs from `stFloor`'s baseline. -/
def respFloorSubject : Response := { status_code := 200, headers := [], text := "bb" }

/-- A calibration response whose body is well-formed markup for
`pmHtmlOnly`. -/
def respMarkup : Response := { status_code := 200, headers := [], text := "<a></a>" }

/-- A calibration response whose body fails markup parsing under
`pmHtmlOnly`. -/
def respPlain : Response := { status_code := 200, headers := [], text := "plain" }

/-! ### Helper lemmas -/

theorem lookupHeader_isSome_of_mem {h : Headers} {n : String}
    (hn : n ∈ h.map Prod.fst) : (lookupHeader h n).isSome := by
  induction h with
  | nil => simp at hn
  | cons p t ih =>
    by_cases hp : p.1 = n
    · simp [lookupHeader, List.find?, hp]
    · simp only [List.map_cons, List.mem_cons] at hn
      rcases hn with hn | hn
      · exact absurd hn.symm hp
      · simpa [lookupHeader, List.find?, hp] using ih hn

theorem headerDiffNames_self (h : Headers) : headerDiffNames h h = [] := by
  unfold headerDiffNames
  simp only [List.append_eq_nil]
  refine ⟨⟨?_, ?_⟩, ?_⟩ <;> rw [List.filter_eq_nil_iff]
  · intro n hn
    have := lookupHeader_isSome_of_mem hn
    simp only [decide_eq_true_eq]
    intro hnone
    rw [hnone] at this
    simp at this
  · intro n _
    cases hl : lookupHeader h n <;> simp [hl]
  · intro n hn
    have := lookupHeader_isSome_of_mem hn
    simp only [decide_eq_true_eq]
    intro hnone
    rw [hnone] at this
    simp at this

/-- Projections of `compare_headers`: the returned mutated collections are
the inputs with the ignored names deleted. -/
theorem compare_headers_eq (ig : List String) (h1 h2 : Headers) :
    HttpCompare.compare_headers ig h1 h2 =
      (headerDiffNames (delHeaders ig h1) (delHeaders ig h2),
        delHeaders ig h1, delHeaders ig h2) := rfl

/-! ### Branch lemmas for `compare` -/

theorem compare_code_branch {T : Type} [DecidableEq T] (pm : String → Option T)
    (dd : StructuralForm T → StructuralForm T → ℚ) (st : HttpCompareState T)
    (resp : Response) (ah ac : Option Headers)
    (h : st.baseline.status_code ≠ resp.status_code) :
    HttpCompare.compare pm dd st (some resp) ah ac =
      ((false, some "code", reflectionFlag ah ac resp.text), st) := by
  simp [HttpCompare.compare, h]

theorem compare_header_branch {T : Type} [DecidableEq T] (pm : String → Option T)
    (dd : StructuralForm T → StructuralForm T → ℚ) (st : HttpCompareState T)
    (resp : Response) (ah ac : Option Headers)
    (h : st.baseline.status_code = resp.status_code)
    (hd : headerDiffNames (delHeaders st.baseline_ignore_headers st.baseline.headers)
      (delHeaders st.baseline_ignore_headers resp.headers) ≠ []) :
    HttpCompare.compare pm dd st (some resp) ah ac =
      ((false, some "header", reflectionFlag ah ac resp.text), strippedState st) := by
  simp [HttpCompare.compare, h, HttpCompare.compare_headers, hd, strippedState]

theorem compare_body_branch {T : Type} [DecidableEq T] (pm : String → Option T)
    (dd : StructuralForm T → StructuralForm T → ℚ) (st : HttpCompareState T)
    (resp : Response) (ah ac : Option Headers)
    (h : st.baseline.status_code = resp.status_code)
    (hd : headerDiffNames (delHeaders st.baseline_ignore_headers st.baseline.headers)
      (delHeaders st.baseline_ignore_headers resp.headers) = [])
    (hb : st.baseline_body_distance ≠
      HttpCompare.compare_body dd st.baseline_json (parseBody pm resp.text)) :
    HttpCompare.compare pm dd st (some resp) ah ac =
      ((false, some "body", reflectionFlag ah ac resp.text), strippedState st) := by
  simp [HttpCompare.compare, h, HttpCompare.compare_headers, hd, hb, strippedState]

theorem compare_match_branch {T : Type} [DecidableEq T] (pm : String → Option T)
    (dd : StructuralForm T → StructuralForm T → ℚ) (st : HttpCompareState T)
    (resp : Response) (ah ac : Option Headers)
    (h : st.baseline.status_code = resp.status_code)
    (hd : headerDiffNames (delHeaders st.baseline_ignore_headers st.baseline.headers)
      (delHeaders st.baseline_ignore_headers resp.headers) = [])
    (hb : st.baseline_body_distance =
      HttpCompare.compare_body dd st.baseline_json (parseBody pm resp.text)) :
    HttpCompare.compare pm dd st (some resp) ah ac =
      ((true, none, false), strippedState st) := by
  simp [HttpCompare.compare, h, HttpCompare.compare_headers, hd, hb, strippedState]

/-! ### Claim theorems -/

/-- C1: on a usable subject response, `compare` checks the status code
first, then the headers, then the body distance, with fail-fast precedence
code > header > body: a status-code mismatch yields reason `"code"`
regardless of headers and body; reason `"header"` occurs only when the
status codes are equal (and the post-ignore header diff is non-empty);
reason `"body"` occurs only when the status codes are equal and the
post-ignore header diff is empty. -/
theorem compare_reason_precedence {T : Type} [DecidableEq T]
    (pm : String → Option T) (dd : StructuralForm T → StructuralForm T → ℚ)
    (st : HttpCompareState T) (resp : Response) (ah ac : Option Headers) :
    (st.baseline.status_code ≠ resp.status_code →
      (HttpCompare.compare pm dd st (some resp) ah ac).1 =
        (false, some "code", reflectionFlag ah ac resp.text)) ∧
    ((HttpCompare.compare pm dd st (some resp) ah ac).1.2.1 = some "header" →
      st.baseline.status_code = resp.status_code ∧
      headerDiffNames (delHeaders st.baseline_ignore_headers st.baseline.headers)
        (delHeaders st.baseline_ignore_headers resp.headers) ≠ []) ∧
    ((HttpCompare.compare pm dd st (some resp) ah ac).1.2.1 = some "body" →
      st.baseline.status_code = resp.status_code ∧
      headerDiffNames (delHeaders st.baseline_ignore_headers st.baseline.headers)
        (delHeaders st.baseline_ignore_headers resp.headers) = []) := by
  by_cases h : st.baseline.status_code = resp.status_code
  · by_cases hd : headerDiffNames (delHeaders st.baseline_ignore_headers st.baseline.headers)
      (delHeaders st.baseline_ignore_headers resp.headers) = []
    · by_cases hb : st.baseline_body_distance =
        HttpCompare.compare_body dd st.baseline_json (parseBody pm resp.text)
      · rw [compare_match_branch pm dd st resp ah ac h hd hb]
        refine ⟨fun hc => absurd h hc, ?_, ?_⟩ <;> · intro hx; simp at hx
      · rw [compare_body_branch pm dd st resp ah ac h hd hb]
        refine ⟨fun hc => absurd h hc, ?_, fun _ => ⟨h, hd⟩⟩
        intro hx
        simp only [Option.some.injEq] at hx
        exact absurd hx (by decide)
    · rw [compare_header_branch pm dd st resp ah ac h hd]
      refine ⟨fun hc => absurd h hc, fun _ => ⟨h, hd⟩, ?_⟩
      intro hx
      simp only [Option.some.injEq] at hx
      exact absurd hx (by decide)
  · rw [compare_code_branch pm dd st resp ah ac h]
    refine ⟨fun _ => rfl, ?_, ?_⟩ <;>
      · intro hx
        simp only [Option.some.injEq] at hx
        exact absurd hx (by decide)

/-- Witness for C1: with the empty-baseline state and a subject response of
status `404`, the status codes differ and the result reports reason
`"code"`. -/
theorem compare_reason_precedence_witness :
    (HttpCompare.compare pmLinesOnly (ddConst 0) stEmpty
        (some { status_code := 404, headers := [], text := "" }) none none).1 =
      (false, some "code", false) :=
  (compare_reason_precedence pmLinesOnly (ddConst 0) stEmpty
      { status_code := 404, headers := [], text := "" } none none).1 (by decide)

/-- C2: when the status codes match and the post-ignore header diff is
empty, the outcome is decided by exact equality of the subject's body
distance against the calibrated noise-floor distance: a differing distance
yields `(false, "body", reflection)`, an exactly equal distance (including
a nonzero floor) yields `(true, none, false)`. -/
theorem compare_body_noise_floor_equality {T : Type} [DecidableEq T]
    (pm : String → Option T) (dd : StructuralForm T → StructuralForm T → ℚ)
    (st : HttpCompareState T) (resp : Response) (ah ac : Option Headers)
    (h : st.baseline.status_code = resp.status_code)
    (hd : headerDiffNames (delHeaders st.baseline_ignore_headers st.baseline.headers)
      (delHeaders st.baseline_ignore_headers resp.headers) = []) :
    (HttpCompare.compare_body dd st.baseline_json (parseBody pm resp.text) ≠
        st.baseline_body_distance →
      (HttpCompare.compare pm dd st (some resp) ah ac).1 =
        (false, some "body", reflectionFlag ah ac resp.text)) ∧
    (HttpCompare.compare_body dd st.baseline_json (parseBody pm resp.text) =
        st.baseline_body_distance →
      (HttpCompare.compare pm dd st (some resp) ah ac).1 = (true, none, false)) := by
  constructor
  · intro hb
    rw [compare_body_branch pm dd st resp ah ac h hd (Ne.symm hb)]
  · intro hb
    rw [compare_match_branch pm dd st resp ah ac h hd hb.symm]

/-- Witness for C2: with a calibrated noise floor of `0.12` and a subject
whose body differs but whose deep distance is the same `0.12`, the result
is a match `(true, none, false)`. -/
theorem compare_body_noise_floor_equality_witness :
    stFloor.baseline_body_distance = 12 / 100 ∧
    (HttpCompare.compare pmCharCount (ddConst (12 / 100)) stFloor
        (some respFloorSubject) none none).1 = (true, none, false) :=
  ⟨rfl,
    (compare_body_noise_floor_equality pmCharCount (ddConst (12 / 100)) stFloor
        respFloorSubject none none rfl rfl).2 rfl⟩

/-- C4: a subject request with no usable response (unreachable/blocked
transport outcome) makes `compare` return `(true, "403", false)` with the
comparator state untouched: no reflection, header, or body check is
performed and no error is raised. -/
theorem compare_unreachable_nonsignal {T : Type} [DecidableEq T]
    (pm : String → Option T) (dd : StructuralForm T → StructuralForm T → ℚ)
    (st : HttpCompareState T) (ah ac : Option Headers) :
    HttpCompare.compare pm dd st none ah ac = ((true, some "403", false), st) := rfl

/-- Amended C9: the mismatch reason returned by `compare` is an element of
the set \x7bnone, "403", "code", "header", "body"\x7d — the sentinel reason
`"403"` for unreachable subject requests occurs in addition to the four
values the claim lists. -/
theorem compare_reason_in_sentinel_set {T : Type} [DecidableEq T]
    (pm : String → Option T) (dd : StructuralForm T → StructuralForm T → ℚ)
    (st : HttpCompareState T) (subject_response : Option Response)
    (ah ac : Option Headers) :
    (HttpCompare.compare pm dd st subject_response ah ac).1.2.1 ∈
      ([none, some "403", some "code", some "header", some "body"] : List (Option String)) := by
  cases subject_response with
  | none => simp [HttpCompare.compare]
  | some resp =>
    by_cases h : st.baseline.status_code = resp.status_code
    · by_cases hd : headerDiffNames (delHeaders st.baseline_ignore_headers st.baseline.headers)
        (delHeaders st.baseline_ignore_headers resp.headers) = []
      · by_cases hb : st.baseline_body_distance =
          HttpCompare.compare_body dd st.baseline_json (parseBody pm resp.text)
        · rw [compare_match_branch pm dd st resp ah ac h hd hb]; simp
        · rw [compare_body_branch pm dd st resp ah ac h hd hb]; simp
      · rw [compare_header_branch pm dd st resp ah ac h hd]; simp
    · rw [compare_code_branch pm dd st resp ah ac h]; simp

/-- Counterexample for C9: on an unreachable subject request against a
reachable calibrated state, `compare` returns the sentinel reason `"403"`,
which is not an element of \x7bnone, "code", "header", "body"\x7d. -/
theorem compare_reason_403_counterexample :
    HttpCompare.init pmCharCount (ddConst 0) "http://x" respEmpty respEmpty =
      Except.ok stEmpty ∧
    (HttpCompare.compare pmCharCount (ddConst 0) stEmpty none none none).1.2.1 = some "403" ∧
    some "403" ∉ ([none, some "code", some "header", some "body"] : List (Option String)) := by
  refine ⟨rfl, rfl, by decide⟩

/-- C3: when the two calibration responses carry different status codes,
`HttpCompare.init` fails with `HttpCompareError` and produces no comparator
state at all — the failure is atomic. -/
theorem init_unstable_baseline {T : Type} [DecidableEq T] (pm : String → Option T)
    (dd : StructuralForm T → StructuralForm T → ℚ) (url : String)
    (b1 b2 : Response) (h : b1.status_code ≠ b2.status_code) :
    HttpCompare.init pm dd url b1 b2 =
      Except.error ⟨"Can't get baseline from source URL"⟩ ∧
    ∀ st : HttpCompareState T, HttpCompare.init pm dd url b1 b2 ≠ Except.ok st := by
  have he : HttpCompare.init pm dd url b1 b2 =
      Except.error ⟨"Can't get baseline from source URL"⟩ := by
    simp [HttpCompare.init, h]
  refine ⟨he, fun st hok => ?_⟩
  rw [he] at hok
  exact Except.noConfusion hok

/-- Witness for C3: calibration responses with status codes `200` and `500`
make `init` fail with the `HttpCompareError`, and no state is produced. -/
theorem init_unstable_baseline_witness :
    HttpCompare.init pmCharCount (ddConst 0) "http://x" resp200 resp500 =
      Except.error ⟨"Can't get baseline from source URL"⟩ ∧
    ∀ st : HttpCompareState Nat,
      HttpCompare.init pmCharCount (ddConst 0) "http://x" resp200 resp500 ≠ Except.ok st :=
  init_unstable_baseline pmCharCount (ddConst 0) "http://x" resp200 resp500 (by decide)

/-- C7: after a successful calibration, the ignore set is exactly the
seeded volatile names followed by the header names that differ between the
two seed-stripped calibration header collections; in particular, two
calibration responses with identical bodies whose headers agree outside the
seeded names (e.g. differing only in `Date`) produce a noise-floor distance
of `0.0` and an ignore set equal to the seeds alone. -/
theorem init_ignore_set_and_date_noise {T : Type} [DecidableEq T]
    (pm : String → Option T) (dd : StructuralForm T → StructuralForm T → ℚ)
    (url : String) (b1 b2 : Response) (st : HttpCompareState T)
    (hinit : HttpCompare.init pm dd url b1 b2 = Except.ok st) :
    st.baseline_ignore_headers =
      seedIgnoreHeaders ++
        headerDiffNames (delHeaders seedIgnoreHeaders b1.headers)
          (delHeaders seedIgnoreHeaders b2.headers) ∧
    (b1.text = b2.text →
      delHeaders seedIgnoreHeaders b1.headers = delHeaders seedIgnoreHeaders b2.headers →
      st.baseline_body_distance = 0 ∧ st.baseline_ignore_headers = seedIgnoreHeaders) := by
  unfold HttpCompare.init at hinit
  by_cases hsc : b1.status_code ≠ b2.status_code
  · rw [if_pos hsc] at hinit
    exact Except.noConfusion hinit
  · rw [if_neg hsc] at hinit
    dsimp only at hinit
    injection hinit with hst
    subst hst
    refine ⟨rfl, fun htext hheads => ⟨?_, ?_⟩⟩
    · show HttpCompare.compare_body dd (parseBaselines pm b1.text b2.text).1
        (parseBaselines pm b1.text b2.text).2 = 0
      rw [htext]
      rcases hpm : pm b2.text with _ | j <;>
        simp [parseBaselines, hpm, HttpCompare.compare_body]
    · show seedIgnoreHeaders ++
        headerDiffNames (delHeaders seedIgnoreHeaders b1.headers)
          (delHeaders seedIgnoreHeaders b2.headers) = seedIgnoreHeaders
      rw [hheads, headerDiffNames_self, List.append_nil]

/-- Witness for C7: two calibration responses identical except for the
`Date` header value calibrate to noise-floor distance `0` with an ignore
set equal to the seeded volatile names. -/
theorem init_ignore_set_and_date_noise_witness :
    stDate.baseline_body_distance = 0 ∧
    stDate.baseline_ignore_headers = seedIgnoreHeaders :=
  (init_ignore_set_and_date_noise pmCharCount (ddConst 1) "http://x"
      respDate1 respDate2 stDate rfl).2 rfl rfl

/-- C10: the two calibration bodies are parsed inside one shared failure
scope: when markup parsing of either body fails, both bodies take the
line-sequence fallback — even when the other body would parse as a tree on
its own — and the stored baseline structural body is then the first body's
line sequence. -/
theorem parse_shared_failure_scope {T : Type} [DecidableEq T]
    (pm : String → Option T) (dd : StructuralForm T → StructuralForm T → ℚ)
    (url : String) (b1 b2 : Response)
    (h : pm b1.text = none ∨ pm b2.text = none) :
    parseBaselines pm b1.text b2.text =
      (StructuralForm.lines (b1.text.splitOn "\n"),
        StructuralForm.lines (b2.text.splitOn "\n")) ∧
    ∀ st, HttpCompare.init pm dd url b1 b2 = Except.ok st →
      st.baseline_json = StructuralForm.lines (b1.text.splitOn "\n") := by
  have hp : parseBaselines pm b1.text b2.text =
      (StructuralForm.lines (b1.text.splitOn "\n"),
        StructuralForm.lines (b2.text.splitOn "\n")) := by
    unfold parseBaselines
    rcases hpm1 : pm b1.text with _ | j1 <;> rcases hpm2 : pm b2.text with _ | j2 <;>
      simp_all
  refine ⟨hp, fun st hinit => ?_⟩
  unfold HttpCompare.init at hinit
  by_cases hsc : b1.status_code ≠ b2.status_code
  · rw [if_pos hsc] at hinit
    exact Except.noConfusion hinit
  · rw [if_neg hsc] at hinit
    dsimp only at hinit
    injection hinit with hst
    subst hst
    show (parseBaselines pm b1.text b2.text).1 = _
    rw [hp]

/-- Witness for C10: under `pmHtmlOnly`, the first body `"<a></a>"` parses
as a tree on its own, the second body `"plain"` does not, and calibration
nevertheless parses both as line sequences. -/
theorem parse_shared_failure_scope_witness :
    pmHtmlOnly respMarkup.text = some 0 ∧
    pmHtmlOnly respPlain.text = none ∧
    parseBaselines pmHtmlOnly respMarkup.text respPlain.text =
      (StructuralForm.lines (respMarkup.text.splitOn "\n"),
        StructuralForm.lines (respPlain.text.splitOn "\n")) :=
  ⟨rfl, rfl,
    (parse_shared_failure_scope pmHtmlOnly (ddConst 0) "http://x"
        respMarkup respPlain (Or.inr rfl)).1⟩

/-- If the cookie reflection branch sets the flag, then exactly one extra
cookie was supplied and its value occurs in the body. -/
theorem cookieReflection_true_cond {ac : Option Headers} {t : String}
    (h : cookieReflection ac t = true) :
    ∃ n v, ac = some [(n, v)] ∧ containsStr t v = true := by
  cases ac with
  | none => simp [cookieReflection] at h
  | some cs =>
    simp only [cookieReflection] at h
    by_cases he : cs.isEmpty
    · rw [if_pos he] at h
      exact absurd h (by simp)
    · rw [if_neg he] at h
      by_cases hl : cs.length = 1
      · rw [if_pos hl] at h
        obtain ⟨p, hp⟩ := List.length_eq_one.mp hl
        subst hp
        exact ⟨p.1, p.2, rfl, by simpa [firstValue] using h⟩
      · rw [if_neg hl] at h
        exact absurd h (by simp)

/-- If the reflection flag is set, then either exactly one extra header was
supplied and its value occurs in the body, or no extra header was supplied
(absent or empty) and exactly one extra cookie was supplied with its value
in the body. -/
theorem reflectionFlag_true_cond {ah ac : Option Headers} {t : String}
    (h : reflectionFlag ah ac t = true) :
    (∃ n v, ah = some [(n, v)] ∧ containsStr t v = true) ∨
    ((ah = none ∨ ah = some []) ∧ ∃ n v, ac = some [(n, v)] ∧ containsStr t v = true) := by
  cases ah with
  | none =>
    exact Or.inr ⟨Or.inl rfl, cookieReflection_true_cond (by simpa [reflectionFlag] using h)⟩
  | some hs =>
    simp only [reflectionFlag] at h
    by_cases he : hs.isEmpty
    · rw [if_pos he] at h
      have : hs = [] := List.isEmpty_iff.mp he
      subst this
      exact Or.inr ⟨Or.inr rfl, cookieReflection_true_cond h⟩
    · rw [if_neg he] at h
      by_cases hl : hs.length = 1
      · rw [if_pos hl] at h
        obtain ⟨p, hp⟩ := List.length_eq_one.mp hl
        subst hp
        exact Or.inl ⟨p.1, p.2, rfl, by simpa [firstValue] using h⟩
      · rw [if_neg hl] at h
        exact absurd h (by simp)

/-- More than one extra header leaves the reflection flag unset. -/
theorem reflectionFlag_multi_headers {hs : Headers} (hl : 1 < hs.length)
    (ac : Option Headers) (t : String) :
    reflectionFlag (some hs) ac t = false := by
  have he : ¬hs.isEmpty := by
    cases hs with
    | nil => simp at hl
    | cons a l => simp
  have hne : ¬hs.length = 1 := by omega
  simp only [reflectionFlag]
  rw [if_neg he, if_neg hne]

/-- With no extra headers supplied, more than one extra cookie leaves the
reflection flag unset. -/
theorem reflectionFlag_multi_cookies {ah : Option Headers}
    (hah : ah = none ∨ ah = some []) {cs : Headers} (hl : 1 < cs.length) (t : String) :
    reflectionFlag ah (some cs) t = false := by
  have he : ¬cs.isEmpty := by
    cases cs with
    | nil => simp at hl
    | cons a l => simp
  have hne : ¬cs.length = 1 := by omega
  rcases hah with rfl | rfl
  · simp only [reflectionFlag, cookieReflection]
    rw [if_neg he, if_neg hne]
  · have h1 : reflectionFlag (some []) (some cs) t = cookieReflection (some cs) t := rfl
    rw [h1]
    simp only [cookieReflection]
    rw [if_neg he, if_neg hne]

/-- The reflection component of a `compare` result is either the computed
reflection flag (mismatch outcomes) or `false` (the final match outcome
discards it). -/
theorem compare_reflection_component {T : Type} [DecidableEq T]
    (pm : String → Option T) (dd : StructuralForm T → StructuralForm T → ℚ)
    (st : HttpCompareState T) (resp : Response) (ah ac : Option Headers) :
    (HttpCompare.compare pm dd st (some resp) ah ac).1.2.2 =
      reflectionFlag ah ac resp.text ∨
    (HttpCompare.compare pm dd st (some resp) ah ac).1.2.2 = false := by
  by_cases h : st.baseline.status_code = resp.status_code
  · by_cases hd : headerDiffNames (delHeaders st.baseline_ignore_headers st.baseline.headers)
      (delHeaders st.baseline_ignore_headers resp.headers) = []
    · by_cases hb : st.baseline_body_distance =
        HttpCompare.compare_body dd st.baseline_json (parseBody pm resp.text)
      · rw [compare_match_branch pm dd st resp ah ac h hd hb]
        exact Or.inr rfl
      · rw [compare_body_branch pm dd st resp ah ac h hd hb]
        exact Or.inl rfl
    · rw [compare_header_branch pm dd st resp ah ac h hd]
      exact Or.inl rfl
  · rw [compare_code_branch pm dd st resp ah ac h]
    exact Or.inl rfl

/-- C5: the reflection component of a `compare` result is `true` only when
exactly one extra header was supplied with its value occurring verbatim in
the subject body, or — with no extra header supplied — exactly one extra
cookie was supplied with its value in the body; supplying more than one
extra header (or, without headers, more than one extra cookie) always
yields `reflection = false`, even when an injected value occurs in the
body. -/
theorem reflection_single_injection_only {T : Type} [DecidableEq T]
    (pm : String → Option T) (dd : StructuralForm T → StructuralForm T → ℚ)
    (st : HttpCompareState T) (resp : Response) (ah ac : Option Headers) :
    ((HttpCompare.compare pm dd st (some resp) ah ac).1.2.2 = true →
      (∃ n v, ah = some [(n, v)] ∧ containsStr resp.text v = true) ∨
      ((ah = none ∨ ah = some []) ∧
        ∃ n v, ac = some [(n, v)] ∧ containsStr resp.text v = true)) ∧
    (∀ hs, ah = some hs → 1 < hs.length →
      (HttpCompare.compare pm dd st (some resp) ah ac).1.2.2 = false) ∧
    (∀ cs, (ah = none ∨ ah = some []) → ac = some cs → 1 < cs.length →
      (HttpCompare.compare pm dd st (some resp) ah ac).1.2.2 = false) := by
  refine ⟨?_, ?_, ?_⟩
  · intro h
    rcases compare_reflection_component pm dd st resp ah ac with hc | hc
    · exact reflectionFlag_true_cond (hc ▸ h)
    · rw [hc] at h
      exact absurd h (by simp)
  · intro hs hah hl
    rcases compare_reflection_component pm dd st resp ah ac with hc | hc
    · rw [hc, hah, reflectionFlag_multi_headers hl ac resp.text]
    · exact hc
  · intro cs hah hac hl
    rcases compare_reflection_component pm dd st resp ah ac with hc | hc
    · rw [hc, hac, reflectionFlag_multi_cookies hah hl resp.text]
    · exact hc

/-- Witness for C5: against `stEmpty`, a `404` subject response with body
`"marker-123"` and a single extra header whose value is `"marker-123"`
yields `reflection = true` (and its attribution), while supplying two extra
headers with the same values under the same response yields
`reflection = false`. -/
theorem reflection_single_injection_only_witness :
    ((∃ n v, (some [("X-Injected", "marker-123")] : Option Headers) = some [(n, v)] ∧
        containsStr "marker-123" v = true) ∨
      (((some [("X-Injected", "marker-123")] : Option Headers) = none ∨
          (some [("X-Injected", "marker-123")] : Option Headers) = some []) ∧
        ∃ n v, (none : Option Headers) = some [(n, v)] ∧
          containsStr "marker-123" v = true)) ∧
    (HttpCompare.compare pmCharCount (ddConst 0) stEmpty
        (some { status_code := 404, headers := [], text := "marker-123" })
        (some [("X-Injected", "marker-123"), ("X-Other", "marker-123")]) none).1.2.2 = false :=
  ⟨(reflection_single_injection_only pmCharCount (ddConst 0) stEmpty
        { status_code := 404, headers := [], text := "marker-123" }
        (some [("X-Injected", "marker-123")]) none).1 (by decide),
    (reflection_single_injection_only pmCharCount (ddConst 0) stEmpty
        { status_code := 404, headers := [], text := "marker-123" }
        (some [("X-Injected", "marker-123"), ("X-Other", "marker-123")]) none).2.1
      [("X-Injected", "marker-123"), ("X-Other", "marker-123")] rfl (by decide)⟩

/-- C6 (evaluating the code at the claim's input): the subject request
issued by `compare` carries the cache-busting token and the supplied extra
headers and has redirects disabled, but carries NO cookies — `add_cookies`
is never passed to the transport, so the issued request is identical
whatever extra cookies were supplied. -/
theorem subject_request_construction (subject tok : String) (ah ac ac' : Option Headers) :
    (subjectRequest subject tok ah ac).url = subject ++ gen_cache_buster tok ∧
    (subjectRequest subject tok ah ac).headers = ah ∧
    (subjectRequest subject tok ah ac).allow_redirects = false ∧
    (subjectRequest subject tok ah ac).cookies = none ∧
    subjectRequest subject tok ah ac = subjectRequest subject tok ah ac' :=
  ⟨rfl, rfl, rfl, rfl, rfl⟩

/-- Counterexample data for C8: one `compare` call against the calibrated
state `stDyn` (whose ignore set contains the discovered dynamic header
`x-token`) deletes `x-token` from the stored baseline header collection —
the Baseline's reference headers are mutated, not copied. -/
theorem compare_mutates_baseline_headers :
    HttpCompare.init pmCharCount (ddConst 0) "http://x" respDyn1 respDyn2 =
      Except.ok stDyn ∧
    stDyn.baseline.headers = [("x-token", "a"), ("server", "nginx")] ∧
    (HttpCompare.compare pmCharCount (ddConst 0) stDyn (some respDynSubject)
        none none).2.baseline.headers = [("server", "nginx")] ∧
    (HttpCompare.compare pmCharCount (ddConst 0) stDyn (some respDynSubject)
        none none).2.baseline.headers ≠ stDyn.baseline.headers := by
  refine ⟨rfl, rfl, rfl, by decide⟩

/-- Amended C8: a `compare` call leaves every stored reference value of the
Baseline unchanged — status code, body text, structural body, ignore set,
noise-floor distance — except that the stored header collection may have
the ignored names deleted from it in place (the in-place `del` of
`compare_headers` acts on the Baseline's own header dict, not on a
copy). -/
theorem compare_state_effect {T : Type} [DecidableEq T]
    (pm : String → Option T) (dd : StructuralForm T → StructuralForm T → ℚ)
    (st : HttpCompareState T) (subject_response : Option Response)
    (ah ac : Option Headers) :
    (HttpCompare.compare pm dd st subject_response ah ac).2.baseline_url =
      st.baseline_url ∧
    (HttpCompare.compare pm dd st subject_response ah ac).2.baseline.status_code =
      st.baseline.status_code ∧
    (HttpCompare.compare pm dd st subject_response ah ac).2.baseline.text =
      st.baseline.text ∧
    (HttpCompare.compare pm dd st subject_response ah ac).2.baseline_json =
      st.baseline_json ∧
    (HttpCompare.compare pm dd st subject_response ah ac).2.baseline_ignore_headers =
      st.baseline_ignore_headers ∧
    (HttpCompare.compare pm dd st subject_response ah ac).2.baseline_body_distance =
      st.baseline_body_distance ∧
    ((HttpCompare.compare pm dd st subject_response ah ac).2.baseline.headers =
        st.baseline.headers ∨
      (HttpCompare.compare pm dd st subject_response ah ac).2.baseline.headers =
        delHeaders st.baseline_ignore_headers st.baseline.headers) := by
  cases subject_response with
  | none => exact ⟨rfl, rfl, rfl, rfl, rfl, rfl, Or.inl rfl⟩
  | some resp =>
    by_cases h : st.baseline.status_code = resp.status_code
    · by_cases hd : headerDiffNames (delHeaders st.baseline_ignore_headers st.baseline.headers)
        (delHeaders st.baseline_ignore_headers resp.headers) = []
      · by_cases hb : st.baseline_body_distance =
          HttpCompare.compare_body dd st.baseline_json (parseBody pm resp.text)
        · rw [compare_match_branch pm dd st resp ah ac h hd hb]
          exact ⟨rfl, rfl, rfl, rfl, rfl, rfl, Or.inr rfl⟩
        · rw [compare_body_branch pm dd st resp ah ac h hd hb]
          exact ⟨rfl, rfl, rfl, rfl, rfl, rfl, Or.inr rfl⟩
      · rw [compare_header_branch pm dd st resp ah ac h hd]
        exact ⟨rfl, rfl, rfl, rfl, rfl, rfl, Or.inr rfl⟩
    · rw [compare_code_branch pm dd st resp ah ac h]
      exact ⟨rfl, rfl, rfl, rfl, rfl, rfl, Or.inl rfl⟩

end BBot
